import Mathlib

/-!
Verification development for the MJPEG desktop utility renderer
(`src/renderer.js`).

The file shallowly embeds the two testable cores of the renderer:

* the saved-URL library (`loadSavedUrls`, `markUrlAsUsed`,
  `renderSavedUrls`, bounded by `MAX_SAVED_URLS`), modelled as pure
  functions over an explicit collection state (the JavaScript code
  re-reads and re-writes the collection through `localStorage` on every
  call, so the collection threads through as a value);
* the capture-session controller (the `record`/`snapshot` click
  handlers, `setRecordingUiState`, the recording countdown flag, and the
  per-session shell event handlers `message`/`error`/`end`), modelled as
  a state machine over `RendererState` with an explicit event trace.

JavaScript strings are modelled as Lean `String`; the JavaScript
operations `trim`, `toLowerCase` and `includes` are modelled over the
underlying character lists so that every definition evaluates by kernel
reduction. Timestamps (`Date.now()`) and exit codes are modelled as
`Int`. `Number(x) || d` coercion is modelled with `Option Int`, where
`none` plays the role of `NaN`.
-/

/-- Model of JavaScript `String.prototype.includes`: `pat` occurs as a
contiguous sublist of `hay`. -/
def containsSub (hay pat : List Char) : Bool :=
  hay.tails.any (fun t => pat.isPrefixOf t)

/-- Model of JavaScript `String.prototype.trim`: drop whitespace from
both ends. -/
def jsTrim (s : String) : String :=
  String.mk (((s.data.dropWhile Char.isWhitespace).reverse.dropWhile
    Char.isWhitespace).reverse)

/-- Model of `s.toLowerCase().includes(pat)` for the lowercase search
patterns used by the renderer. -/
def jsIncludesLower (s pat : String) : Bool :=
  containsSub (s.data.map Char.toLower) pat.data

/-- `const MAX_SAVED_URLS = 20;` (renderer.js line 7). -/
def MAX_SAVED_URLS : Nat := 20

/-- `const PYTHON_PATH = ...` (renderer.js line 8); the platform is not
part of the verified state, the non-Windows value is used. -/
def PYTHON_PATH : String := "python3"

/-- One saved stream URL, as persisted by the renderer: the storage
schema is exactly `{ url, lastUsedAt }` — the source has no `pinned`
flag and no `displayName` field. -/
structure SavedUrl where
  url : String
  lastUsedAt : Int
deriving DecidableEq, Repr

/-- One already-JSON-decoded element of the persisted array, as seen by
`loadSavedUrls` (renderer.js lines 112-118): `urlIsString` models the
check that the item is truthy and its url is a string, `lastUsedAtNum` models
`Number(item.lastUsedAt)` with `none` for `NaN`. -/
structure RawItem where
  urlIsString : Bool
  url : String
  lastUsedAtNum : Option Int
deriving DecidableEq, Repr

/-- `loadSavedUrls` (renderer.js lines 100-123) on an already-parsed
array: filter items with a string `url`, trim the url, coerce
`lastUsedAt` with `Number(item.lastUsedAt) || Date.now()` (falsy means
`NaN` or `0`), and drop entries whose trimmed url is empty. The
non-array and parse-error paths return the empty collection and are not
needed by the claims about this function. -/
def loadSavedUrls (parsed : List RawItem) (now : Int) : List SavedUrl :=
  ((parsed.filter (fun item => item.urlIsString)).map
    (fun item =>
      ({ url := jsTrim item.url,
         lastUsedAt :=
           match item.lastUsedAtNum with
           | some n => if n = 0 then now else n
           | none => now } : SavedUrl))).filter
    (fun item => item.url.length > 0)

/-- The stable sort `savedUrls.sort((a, b) => b.lastUsedAt - a.lastUsedAt)`
(renderer.js line 180): stable descending order on `lastUsedAt`.
`List.insertionSort` with this relation is a stable sort, matching the
ECMAScript guarantee that `Array.prototype.sort` is stable. -/
def sortByLastUsedDesc (l : List SavedUrl) : List SavedUrl :=
  List.insertionSort (fun a b => b.lastUsedAt ≤ a.lastUsedAt) l

/-- The `existingIndex >= 0` branch of `markUrlAsUsed` (renderer.js
lines 169-172): `findIndex` locates the first entry whose url equals the
normalized url and its `lastUsedAt` is overwritten in place. -/
def touchFirst (l : List SavedUrl) (normalizedUrl : String) (now : Int) :
    List SavedUrl :=
  match l with
  | [] => []
  | item :: rest =>
    if item.url = normalizedUrl then { item with lastUsedAt := now } :: rest
    else item :: touchFirst rest normalizedUrl now

/-- `markUrlAsUsed` (renderer.js lines 162-184): trim the url, return
unchanged when blank, otherwise bump the timestamp of the existing
entry or append a new one, sort by `lastUsedAt` descending and keep the
first `MAX_SAVED_URLS` entries. The persisted and rendered collection is
the returned list. -/
def markUrlAsUsed (url : String) (saved : List SavedUrl) (now : Int) :
    List SavedUrl :=
  let normalizedUrl := jsTrim url
  if normalizedUrl = "" then saved
  else
    let savedUrls :=
      if saved.any (fun item => item.url = normalizedUrl) then
        touchFirst saved normalizedUrl now
      else
        saved ++ [{ url := normalizedUrl, lastUsedAt := now }]
    (sortByLastUsedDesc savedUrls).take MAX_SAVED_URLS

/-- `renderSavedUrls` (renderer.js lines 129-160) renders one table row
per entry, in list order; the observable display order is the sequence
of urls. -/
def renderSavedUrls (saved : List SavedUrl) : List String :=
  saved.map (fun item => item.url)

/-- The renderer-global mutable state touched by the capture-session
handlers: the `isRecording` flag, the disabled state of each control
(set together by `setRecordingUiState`), the countdown interval
(`recordingTimerId`, modelled as the Boolean `timerRunning`), and the
per-session `recordingFinished` latch (renderer.js lines 19-20, 241). -/
structure RendererState where
  isRecording : Bool
  recordDisabled : Bool
  durationDisabled : Bool
  previewDisabled : Bool
  snapshotDisabled : Bool
  timerRunning : Bool
  recordingFinished : Bool
deriving DecidableEq, Repr

/-- `setRecordingUiState` (renderer.js lines 49-56): sets `isRecording`
and disables or enables the record, duration, preview and snapshot
controls together. -/
def setRecordingUiState (active : Bool) (st : RendererState) : RendererState :=
  { st with
    isRecording := active
    recordDisabled := active
    durationDisabled := active
    previewDisabled := active
    snapshotDisabled := active }

/-- The state at renderer start: nothing recording, no control
disabled, no countdown, no latched session. -/
def initialState : RendererState :=
  { isRecording := false
    recordDisabled := false
    durationDisabled := false
    previewDisabled := false
    snapshotDisabled := false
    timerRunning := false
    recordingFinished := false }

/-- Observable outcome of a click on the snapshot control.
`alreadyRecording` is the outcome the specification claims for a click
during a recording (the record handler reports it via
an error status reading: A recording is already in progress); the
snapshot handler (renderer.js lines 186-218) contains no `isRecording`
check, so the only way a recording blocks a snapshot is that the click
lands on a disabled control and no handler runs (`ignored`). -/
inductive SnapshotOutcome
  | ignored
  | invalidUrl
  | alreadyRecording
  | captureStarted (url : String)
deriving DecidableEq, Repr

/-- A click on the snapshot control: a disabled control swallows the
click; otherwise the handler (renderer.js lines 186-218) validates the
url via `getVideoUrl` (blank after trim fails) and launches the
still-capture process. The launched shell does not touch the recording
session state. -/
def snapshotClick (st : RendererState) (urlValue : String) :
    SnapshotOutcome × RendererState :=
  if st.snapshotDisabled then (.ignored, st)
  else if jsTrim urlValue = "" then (.invalidUrl, st)
  else (.captureStarted (jsTrim urlValue), st)

/-- Observable outcome of a click on the record control.
`invalidDuration` is the outcome the specification claims for a
non-positive duration; no branch of the handler (renderer.js lines
220-240) produces it. -/
inductive RecordOutcome
  | ignored
  | alreadyRecording
  | invalidUrl
  | invalidDuration
  | started (url : String) (clipDuration : Int)
deriving DecidableEq, Repr

/-- `Number(clipDurationSelect.value) || 5` (renderer.js line 231):
`none` models `NaN`; `NaN` and `0` are falsy and replaced by the
default `5`, every other number (negative included) passes through. -/
def coerceClipDuration (durationValue : Option Int) : Int :=
  match durationValue with
  | none => 5
  | some v => if v = 0 then 5 else v

/-- A click on the record control (renderer.js lines 220-240): a
disabled control swallows the click; the handler re-checks
`isRecording` and reports an error status; a blank url fails via
`getVideoUrl`; otherwise the duration is coerced, the UI is switched to
the recording state, the countdown starts and a fresh session latch
`recordingFinished = false` is created. -/
def recordClick (st : RendererState) (urlValue : String)
    (durationValue : Option Int) : RecordOutcome × RendererState :=
  if st.recordDisabled then (.ignored, st)
  else if st.isRecording then (.alreadyRecording, st)
  else if jsTrim urlValue = "" then (.invalidUrl, st)
  else
    let clipDuration := coerceClipDuration durationValue
    (.started (jsTrim urlValue) clipDuration,
      { setRecordingUiState true st with
          timerRunning := true
          recordingFinished := false })

/-- `getDependencyHelpMessage` (renderer.js lines 80-87): returns the
actionable install message when the error text mentions a missing `cv2`
module, `none` otherwise. -/
def getDependencyHelpMessage (errorMessage : String) (actionLabel : String) :
    Option String :=
  let normalized := errorMessage.data.map Char.toLower
  if ¬ (containsSub normalized "no module named".data = true ∧
        containsSub normalized "cv2".data = true) then none
  else
    some (actionLabel ++ " unavailable: OpenCV (cv2) is missing for " ++
      PYTHON_PATH ++ ". Run: " ++ PYTHON_PATH ++ " -m pip install opencv-python")

/-- The status/notification text of the recording error path
(renderer.js lines 260-268 and 280-289): the dependency help message
when applicable, otherwise the wrapped shell error message. -/
def errorFailMessage (m : String) : String :=
  match getDependencyHelpMessage m "Recording" with
  | some dependencyMessage => dependencyMessage
  | none => "Recording error: " ++ m

/-- The status/notification text of the non-zero-exit path
(renderer.js lines 296-297). -/
def exitCodeMessage (code : Int) : String :=
  "Recording stopped with exit code " ++ toString code ++ "."

/-- Shell events a recording session can receive: a stdout line
(the shell message handler), a shell error (the shell error handler), and the
process-exit callback (`shell.end(...)`) with its optional error and
exit code. -/
inductive ShellEvent
  | message (text : String)
  | error (message : String)
  | exited (error : Option String) (code : Int)
deriving DecidableEq, Repr

/-- A terminal notification delivered to the user for a recording
session (paired `setStatus`/`notifyUser` calls). -/
inductive TerminalNotif
  | succeeded
  | failed (message : String)
deriving DecidableEq, Repr

/-- The combined state effect `stopRecordingCountdown();
setRecordingUiState(false);` shared by every terminal path of the
recording handlers. -/
def stopUi (st : RendererState) : RendererState :=
  { setRecordingUiState false st with timerRunning := false }

/-- `stopUi` followed by `recordingFinished = true`, the effect of the
success-message and error handlers (renderer.js lines 244-247 and
256-259). -/
def latchFinished (st : RendererState) : RendererState :=
  { stopUi st with recordingFinished := true }

/-- One shell event processed by the recording handlers (renderer.js
lines 243-299), returning the next state and the terminal notifications
emitted by that event. A message containing `success` latches the
session and reports success; any shell error latches the session and
reports failure; the exit callback returns early when the latch is
already set, otherwise it classifies the outcome by the error argument
and the exit code. Note that only the exit callback consults the latch:
the message and error handlers emit unconditionally. -/
def recStep (st : RendererState) (ev : ShellEvent) :
    RendererState × List TerminalNotif :=
  match ev with
  | .message text =>
    if jsIncludesLower text "success" then
      (latchFinished st, [.succeeded])
    else (st, [])
  | .error m =>
    (latchFinished st, [.failed (errorFailMessage m)])
  | .exited err code =>
    if st.recordingFinished then (st, [])
    else
      match err with
      | some m => (stopUi st, [.failed (errorFailMessage m)])
      | none =>
        if code = 0 then (stopUi st, [.succeeded])
        else (stopUi st, [.failed (exitCodeMessage code)])

/-- Process a whole event trace for one recording session, collecting
every terminal notification in order. -/
def recRun (st : RendererState) (events : List ShellEvent) :
    RendererState × List TerminalNotif :=
  match events with
  | [] => (st, [])
  | ev :: rest =>
    let out1 := recStep st ev
    let out2 := recRun out1.1 rest
    (out2.1, out1.2 ++ out2.2)

/-- The state of a freshly accepted recording request. -/
def startedState : RendererState :=
  (recordClick initialState "http://cam" (some 5)).2

/-- Classifies the shell events whose handler emits a terminal
notification unconditionally: a `success` message or an error event. -/
def isTerminalSignal (ev : ShellEvent) : Bool :=
  match ev with
  | .message text => jsIncludesLower text "success"
  | .error _ => true
  | .exited _ _ => false

/-- Classifies the process-exit callback event. -/
def isExitEvent (ev : ShellEvent) : Bool :=
  match ev with
  | .exited _ _ => true
  | _ => false

/-- A concrete full collection: twenty distinct urls with distinct
timestamps, stored most recently used first, exactly as `markUrlAsUsed`
persists them. -/
def full20 : List SavedUrl :=
  [⟨"u20", 20⟩, ⟨"u19", 19⟩, ⟨"u18", 18⟩, ⟨"u17", 17⟩, ⟨"u16", 16⟩,
   ⟨"u15", 15⟩, ⟨"u14", 14⟩, ⟨"u13", 13⟩, ⟨"u12", 12⟩, ⟨"u11", 11⟩,
   ⟨"u10", 10⟩, ⟨"u09", 9⟩, ⟨"u08", 8⟩, ⟨"u07", 7⟩, ⟨"u06", 6⟩,
   ⟨"u05", 5⟩, ⟨"u04", 4⟩, ⟨"u03", 3⟩, ⟨"u02", 2⟩, ⟨"u01", 1⟩]

/-- The collection reached by touching url `A` at time 1, `B` at time 5
and `C` at time 3, the configuration named by the specification example
(`A` is the entry the specification marks as pinned; the stored schema
has no such flag). -/
def stateABC : List SavedUrl :=
  markUrlAsUsed "C" (markUrlAsUsed "B" (markUrlAsUsed "A" [] 1) 5) 3

/-! ## Evaluation checks -/

example : jsTrim "  http://cam " = "http://cam" := by decide

example :
    markUrlAsUsed "b" [⟨"a", 1⟩] 2 = [⟨"b", 2⟩, ⟨"a", 1⟩] := by decide

example :
    markUrlAsUsed "a" [⟨"b", 2⟩, ⟨"a", 1⟩] 3 = [⟨"a", 3⟩, ⟨"b", 2⟩] := by
  decide

example : markUrlAsUsed "   " [⟨"a", 1⟩] 9 = [⟨"a", 1⟩] := by decide

example : startedState.recordingFinished = false := by decide

example :
    (recRun startedState [.message "Recording saved with success"]).2 =
      [.succeeded] := by decide

example :
    (recRun startedState [.message "frame 3 written", .exited none 0]).2 =
      [.succeeded] := by decide

example :
    (recRun startedState [.exited none 2]).2 =
      [.failed (exitCodeMessage 2)] := by decide

/-! ## Supporting lemmas -/

instance : IsTotal SavedUrl (fun a b => b.lastUsedAt ≤ a.lastUsedAt) :=
  ⟨fun a b => le_total b.lastUsedAt a.lastUsedAt⟩

instance : IsTrans SavedUrl (fun a b => b.lastUsedAt ≤ a.lastUsedAt) :=
  ⟨fun _ _ _ hab hbc => le_trans hbc hab⟩

theorem sortByLastUsedDesc_perm (l : List SavedUrl) :
    (sortByLastUsedDesc l).Perm l :=
  List.perm_insertionSort _ l

theorem length_sortByLastUsedDesc (l : List SavedUrl) :
    (sortByLastUsedDesc l).length = l.length :=
  (sortByLastUsedDesc_perm l).length_eq

theorem sorted_sortByLastUsedDesc (l : List SavedUrl) :
    (sortByLastUsedDesc l).Sorted (fun a b => b.lastUsedAt ≤ a.lastUsedAt) :=
  List.sorted_insertionSort _ l

theorem length_touchFirst (l : List SavedUrl) (u : String) (n : Int) :
    (touchFirst l u n).length = l.length := by
  induction l with
  | nil => rfl
  | cons a t ih =>
    by_cases h : a.url = u <;> simp [touchFirst, h, ih]

theorem map_url_touchFirst (l : List SavedUrl) (u : String) (n : Int) :
    (touchFirst l u n).map (fun e => e.url) = l.map (fun e => e.url) := by
  induction l with
  | nil => rfl
  | cons a t ih =>
    by_cases h : a.url = u <;> simp [touchFirst, h, ih]

theorem map_bump_eq_self (t : List SavedUrl) (u : String) (n : Int)
    (h : ∀ e ∈ t, e.url ≠ u) :
    t.map (fun e => if e.url = u then { e with lastUsedAt := n } else e) = t := by
  induction t with
  | nil => rfl
  | cons a t ih =>
    have ha : ¬ a.url = u := h a (List.mem_cons_self a t)
    simp only [List.map_cons, if_neg ha]
    rw [ih (fun e he => h e (List.mem_cons_of_mem a he))]

theorem touchFirst_eq_map (l : List SavedUrl) (u : String) (n : Int)
    (huniq : (l.map (fun e => e.url)).Pairwise (· ≠ ·)) :
    touchFirst l u n =
      l.map (fun e => if e.url = u then { e with lastUsedAt := n } else e) := by
  induction l with
  | nil => rfl
  | cons a t ih =>
    simp only [List.map_cons, List.pairwise_cons] at huniq
    obtain ⟨hhead, htail⟩ := huniq
    by_cases h : a.url = u
    · simp only [touchFirst, if_pos h, List.map_cons]
      rw [map_bump_eq_self t u n]
      intro e he heq
      exact hhead e.url (List.mem_map_of_mem (fun x => x.url) he) (by rw [h, heq])
    · simp only [touchFirst, if_neg h, List.map_cons]
      rw [ih htail]

theorem containsSub_middle (a p b : List Char) :
    containsSub (a ++ (p ++ b)) p = true := by
  unfold containsSub
  rw [List.any_eq_true]
  refine ⟨p ++ b, ?_, ?_⟩
  · rw [List.mem_tails]
    exact List.suffix_append a (p ++ b)
  · exact List.isPrefixOf_iff_prefix.mpr (List.prefix_append p b)

theorem loadSavedUrls_length_le (parsed : List RawItem) (now : Int) :
    (loadSavedUrls parsed now).length ≤ parsed.length := by
  unfold loadSavedUrls
  calc (((parsed.filter (fun item => item.urlIsString)).map
        (fun item =>
          ({ url := jsTrim item.url,
             lastUsedAt :=
               match item.lastUsedAtNum with
               | some n => if n = 0 then now else n
               | none => now } : SavedUrl))).filter
          (fun item => item.url.length > 0)).length
      ≤ ((parsed.filter (fun item => item.urlIsString)).map
          (fun item =>
            ({ url := jsTrim item.url,
               lastUsedAt :=
                 match item.lastUsedAtNum with
                 | some n => if n = 0 then now else n
                 | none => now } : SavedUrl))).length :=
        List.length_filter_le _ _
    _ ≤ parsed.length := by
        rw [List.length_map]
        exact List.length_filter_le _ _

theorem markUrlAsUsed_length_le (url : String) (saved : List SavedUrl)
    (now : Int) (h : saved.length ≤ MAX_SAVED_URLS) :
    (markUrlAsUsed url saved now).length ≤ MAX_SAVED_URLS := by
  by_cases h1 : jsTrim url = ""
  · simpa [markUrlAsUsed, h1] using h
  · simp [markUrlAsUsed, h1, List.length_take]

theorem recRun_append (st : RendererState) (l1 l2 : List ShellEvent) :
    recRun st (l1 ++ l2) =
      ((recRun (recRun st l1).1 l2).1,
       (recRun st l1).2 ++ (recRun (recRun st l1).1 l2).2) := by
  induction l1 generalizing st with
  | nil => simp [recRun]
  | cons e rest ih => simp [recRun, ih, List.append_assoc]

theorem latchFinished_recordingFinished (st : RendererState) :
    (latchFinished st).recordingFinished = true := rfl

theorem recRun_signals (pre : List ShellEvent) (st : RendererState)
    (hpre : ∀ e ∈ pre, isExitEvent e = false) :
    ((recRun st pre).2).length = pre.countP isTerminalSignal ∧
    (recRun st pre).1.recordingFinished =
      (st.recordingFinished || pre.any isTerminalSignal) := by
  induction pre generalizing st with
  | nil => simp [recRun]
  | cons e rest ih =>
    have hrest : ∀ x ∈ rest, isExitEvent x = false :=
      fun x hx => hpre x (List.mem_cons_of_mem e hx)
    match e with
    | .message text =>
      by_cases hs : jsIncludesLower text "success" = true
      · obtain ⟨ihl, ihf⟩ := ih (latchFinished st) hrest
        refine ⟨?_, ?_⟩
        · simp only [recRun, recStep, hs, if_true, List.length_append,
            List.countP_cons, ihl]
          simp [isTerminalSignal, hs]
          omega
        · simp only [recRun, recStep, hs, if_true, List.any_cons, ihf,
            latchFinished_recordingFinished]
          simp [isTerminalSignal, hs]
      · obtain ⟨ihl, ihf⟩ := ih st hrest
        refine ⟨?_, ?_⟩
        · simp only [recRun, recStep, hs, if_false, List.length_append,
            List.countP_cons, ihl]
          simp [isTerminalSignal, hs]
          exact ihl
        · simp only [recRun, recStep, hs, if_false, List.any_cons, ihf]
          simp [isTerminalSignal, hs]
          exact ihf
    | .error m =>
      obtain ⟨ihl, ihf⟩ := ih (latchFinished st) hrest
      refine ⟨?_, ?_⟩
      · simp only [recRun, recStep, List.length_append, List.countP_cons, ihl]
        simp [isTerminalSignal]
        omega
      · simp only [recRun, recStep, List.any_cons, ihf,
          latchFinished_recordingFinished]
        simp [isTerminalSignal]
    | .exited err code =>
      have hx := hpre (.exited err code) (List.mem_cons_self _ rest)
      simp [isExitEvent] at hx

theorem recStep_exited_length (st : RendererState) (err : Option String)
    (code : Int) :
    ((recStep st (.exited err code)).2).length =
      (if st.recordingFinished then 0 else 1) := by
  by_cases hf : st.recordingFinished
  · cases err <;> simp [recStep, hf]
  · cases err
    · by_cases hc : code = 0 <;> simp [recStep, hf, hc]
    · simp [recStep, hf]



theorem markUrlAsUsed_eq_of_ne (url : String) (saved : List SavedUrl)
    (now : Int) (hblank : ¬ jsTrim url = "") :
    markUrlAsUsed url saved now =
      (sortByLastUsedDesc
        (if saved.any (fun item => item.url = jsTrim url) then
          touchFirst saved (jsTrim url) now
        else saved ++ [⟨jsTrim url, now⟩])).take MAX_SAVED_URLS := by
  simp [markUrlAsUsed, hblank]

/-! ## Claims -/

/-- C2: starting from any loaded collection (of at most
`MAX_SAVED_URLS` entries, which every collection persisted by
`markUrlAsUsed` satisfies), after every call in any sequence of
`markUrlAsUsed` (touch) calls the collection holds at most
`MAX_SAVED_URLS = 20` entries. -/
theorem c2_theorem (s0 : List SavedUrl) (calls : List (String × Int))
    (h0 : s0.length ≤ MAX_SAVED_URLS) :
    ∀ s ∈ calls.scanl (fun s c => markUrlAsUsed c.1 s c.2) s0,
      s.length ≤ MAX_SAVED_URLS := by
  induction calls generalizing s0 with
  | nil =>
    intro s hs
    simp [List.scanl] at hs
    simpa [hs] using h0
  | cons c rest ih =>
    intro s hs
    rw [List.scanl_cons] at hs
    rcases List.mem_append.mp hs with h | h
    · have : s = s0 := by simpa using h
      simpa [this] using h0
    · exact ih _ (markUrlAsUsed_length_le _ _ _ h0) s h

/-- Witness for C2: the state after a concrete touch, a member of the
concrete call-sequence trace, respects the bound. -/
theorem c2_witness :
    (markUrlAsUsed "a" [⟨"c", 0⟩] 1).length ≤ MAX_SAVED_URLS :=
  c2_theorem [⟨"c", 0⟩] [("a", 1)] (by decide)
    (markUrlAsUsed "a" [⟨"c", 0⟩] 1) (by decide)

/-- C3 counterexample: the stored entries carry no `pinned` flag, so a
full collection of 20 entries (the closest instantiation of "20 pinned
entries" the schema admits) does not make `markUrlAsUsed` of a new URL
fail: the collection changes and the new URL is inserted, contradicting
the claimed `LibraryFull` rejection with an unchanged collection. -/
theorem c3_counterexample :
    full20.length = MAX_SAVED_URLS ∧
    markUrlAsUsed "new-url" full20 21 ≠ full20 ∧
    "new-url" ∈ renderSavedUrls (markUrlAsUsed "new-url" full20 21) := by
  decide

/-- C3 (amended): entries have no `pinned` flag and there is no
`LibraryFull` failure; touching a new non-blank URL on a full collection
of 20 entries (at a timestamp later than every stored one) always
succeeds: the new entry is inserted, one stored entry is evicted, and
the collection still holds exactly 20 entries. -/
theorem c3_theorem (url : String) (saved : List SavedUrl) (now : Int)
    (hfull : saved.length = MAX_SAVED_URLS)
    (hblank : ¬ jsTrim url = "")
    (hnotmem : ∀ e ∈ saved, e.url ≠ jsTrim url)
    (hfresh : ∀ e ∈ saved, e.lastUsedAt < now) :
    (markUrlAsUsed url saved now).length = MAX_SAVED_URLS ∧
    (⟨jsTrim url, now⟩ : SavedUrl) ∈ markUrlAsUsed url saved now := by
  have hany : (saved.any fun item => item.url = jsTrim url) = false := by
    rw [List.any_eq_false]
    intro e he
    simp [hnotmem e he]
  have hmark : markUrlAsUsed url saved now =
      (sortByLastUsedDesc
        (saved ++ [⟨jsTrim url, now⟩])).take MAX_SAVED_URLS := by
    rw [markUrlAsUsed_eq_of_ne url saved now hblank, hany]
    simp
  have hlen21 : (sortByLastUsedDesc (saved ++ [⟨jsTrim url, now⟩])).length =
      MAX_SAVED_URLS + 1 := by
    rw [length_sortByLastUsedDesc, List.length_append, hfull]
    rfl
  constructor
  · rw [hmark, List.length_take, hlen21]
    rfl
  · rw [hmark]
    cases hL : sortByLastUsedDesc (saved ++ [⟨jsTrim url, now⟩]) with
    | nil => rw [hL] at hlen21; simp at hlen21
    | cons hd tl =>
      have hperm := sortByLastUsedDesc_perm (saved ++ [⟨jsTrim url, now⟩])
      rw [hL] at hperm
      have hsorted := sorted_sortByLastUsedDesc (saved ++ [⟨jsTrim url, now⟩])
      rw [hL] at hsorted
      have hdmem : hd ∈ saved ++ [⟨jsTrim url, now⟩] :=
        hperm.subset (List.mem_cons_self hd tl)
      have hnewmem : (⟨jsTrim url, now⟩ : SavedUrl) ∈ hd :: tl :=
        hperm.mem_iff.mpr (by simp)
      have hd_eq : hd = (⟨jsTrim url, now⟩ : SavedUrl) := by
        rcases List.mem_append.mp hdmem with hins | hone
        · rcases List.mem_cons.mp hnewmem with he | ht
          · exact absurd (by rw [← he] : hd.url = jsTrim url) (hnotmem hd hins)
          · have hle := (List.sorted_cons.mp hsorted).1 _ ht
            exact absurd hle (not_le.mpr (hfresh hd hins))
        · simpa using hone
      rw [hd_eq, show MAX_SAVED_URLS = 19 + 1 from rfl, List.take_succ_cons]
      exact List.mem_cons_self _ _

/-- Witness for C3 (amended) at the concrete full collection. -/
theorem c3_witness :
    (markUrlAsUsed "new-url" full20 21).length = MAX_SAVED_URLS ∧
    (⟨jsTrim "new-url", 21⟩ : SavedUrl) ∈ markUrlAsUsed "new-url" full20 21 :=
  c3_theorem "new-url" full20 21 (by decide) (by decide) (by decide) (by decide)

/-- C4 counterexample: for entries A (t=1, the one the specification
calls pinned — no such flag exists in the stored schema), B (t=5) and
C (t=3), the rendered order is `[B, C, A]` (by `lastUsedAt`
descending), not the claimed `[A, B, C]`. -/
theorem c4_counterexample :
    renderSavedUrls stateABC = ["B", "C", "A"] ∧
    renderSavedUrls stateABC ≠ ["A", "B", "C"] := by decide

/-- C4 (amended): entries have no `pinned` flag and no pinned-first
grouping exists; after any touch of a non-blank URL the collection (and
hence the rendered list, which preserves list order) is ordered by
`lastUsedAt` descending; for the entries A (t=1), B (t=5), C (t=3) the
rendered order is `[B, C, A]`. -/
theorem c4_theorem (url : String) (saved : List SavedUrl) (now : Int)
    (hblank : ¬ jsTrim url = "") :
    (markUrlAsUsed url saved now).Pairwise
      (fun a b => b.lastUsedAt ≤ a.lastUsedAt) ∧
    renderSavedUrls stateABC = ["B", "C", "A"] := by
  constructor
  · rw [markUrlAsUsed_eq_of_ne url saved now hblank]
    exact List.Pairwise.sublist (List.take_sublist _ _)
      (sorted_sortByLastUsedDesc _)
  · decide

/-- Witness for C4 (amended) at a concrete touch. -/
theorem c4_witness :
    (markUrlAsUsed "a" [⟨"b", 4⟩] 9).Pairwise
      (fun a b => b.lastUsedAt ≤ a.lastUsedAt) ∧
    renderSavedUrls stateABC = ["B", "C", "A"] :=
  c4_theorem "a" [⟨"b", 4⟩] 9 (by decide)

/-- C5 counterexample: while a recording is in progress the snapshot
control is disabled, so a snapshot request is silently swallowed — it
does not fail with `AlreadyRecording` (no error status is set; the
snapshot handler has no `isRecording` check at all). -/
theorem c5_counterexample :
    snapshotClick (setRecordingUiState true initialState) "http://cam" =
      (.ignored, setRecordingUiState true initialState) ∧
    (snapshotClick (setRecordingUiState true initialState) "http://cam").1 ≠
      SnapshotOutcome.alreadyRecording := by decide

/-- C5 (amended): while a recording is in progress (any state produced
by `setRecordingUiState true`, which disables the snapshot control), a
snapshot request is ignored: no capture is started and the whole
renderer state — including the recording flag, countdown and session
latch — is unchanged; however no `AlreadyRecording` failure is
reported. -/
theorem c5_theorem (st : RendererState) (urlValue : String) :
    snapshotClick (setRecordingUiState true st) urlValue =
      (.ignored, setRecordingUiState true st) := rfl

/-- C6 counterexample: a record request with a valid URL and duration
`-1` is not rejected with `InvalidDuration`; the handler starts a
recording and passes `-1` through to the countdown and the capture
process. -/
theorem c6_counterexample :
    (recordClick initialState "http://cam" (some (-1))).1 ≠
      RecordOutcome.invalidDuration ∧
    (recordClick initialState "http://cam" (some (-1))).1 =
      .started "http://cam" (-1) ∧
    (recordClick initialState "http://cam" (some (-1))).2.isRecording = true := by
  decide

/-- C6 (amended): a blank URL is rejected (the `getVideoUrl` error
status) and no recording starts, but there is no `InvalidDuration`
check: a negative duration is accepted and the recording starts with
that duration. -/
theorem c6_theorem (st : RendererState) (urlValue : String) (v : Int)
    (hd : st.recordDisabled = false) (hr : st.isRecording = false) :
    (jsTrim urlValue = "" →
      recordClick st urlValue (some v) = (.invalidUrl, st)) ∧
    (¬ jsTrim urlValue = "" → v < 0 →
      (recordClick st urlValue (some v)).1 = .started (jsTrim urlValue) v) := by
  constructor
  · intro hu
    simp [recordClick, hd, hr, hu]
  · intro hu hv
    have hv0 : ¬ v = 0 := by omega
    simp [recordClick, hd, hr, hu, coerceClipDuration, hv0]

/-- Witness for C6 (amended): a blank url at the initial state is
rejected with the collection-state untouched. -/
theorem c6_witness :
    recordClick initialState "" (some (-1)) = (.invalidUrl, initialState) :=
  (c6_theorem initialState "" (-1) rfl rfl).1 rfl

/-- C7: when the capture process exits normally (no shell error) and no
prior explicit success or error signal latched the session, the exit
callback classifies the outcome by exit code: code 0 reports success,
any other code reports failure with a message that contains the exit
code. -/
theorem c7_theorem (st : RendererState) (code : Int)
    (h : st.recordingFinished = false) :
    (recStep st (.exited none code)).2 =
      (if code = 0 then [TerminalNotif.succeeded]
       else [TerminalNotif.failed (exitCodeMessage code)]) ∧
    containsSub (exitCodeMessage code).data (toString code).data = true := by
  constructor
  · by_cases hc : code = 0 <;> simp [recStep, h, hc]
  · have hdata : (exitCodeMessage code).data =
        "Recording stopped with exit code ".data ++
          ((toString code).data ++ ".".data) := by
      simp [exitCodeMessage, String.data_append, List.append_assoc]
    rw [hdata]
    exact containsSub_middle _ _ _

/-- Witness for C7 at a fresh session and exit code 2. -/
theorem c7_witness :
    ((recStep startedState (.exited none 2)).2 =
      (if (2 : Int) = 0 then [TerminalNotif.succeeded]
       else [TerminalNotif.failed (exitCodeMessage 2)]) ∧
    containsSub (exitCodeMessage 2).data (toString (2 : Int)).data = true) :=
  c7_theorem startedState 2 (by decide)

/-- C10: with a valid URL, a duration selector value that coerces to
`NaN` (modelled `none`) or `0` silently yields the default duration 5,
while a negative numeric value is passed through unchanged to the
started recording. -/
theorem c10_theorem (st : RendererState) (urlValue : String) (v : Int)
    (hd : st.recordDisabled = false) (hr : st.isRecording = false)
    (hu : ¬ jsTrim urlValue = "") :
    (recordClick st urlValue none).1 = .started (jsTrim urlValue) 5 ∧
    (recordClick st urlValue (some 0)).1 = .started (jsTrim urlValue) 5 ∧
    (v < 0 → (recordClick st urlValue (some v)).1 =
      .started (jsTrim urlValue) v) := by
  refine ⟨?_, ?_, ?_⟩
  · simp [recordClick, hd, hr, hu, coerceClipDuration]
  · simp [recordClick, hd, hr, hu, coerceClipDuration]
  · intro hv
    have hv0 : ¬ v = 0 := by omega
    simp [recordClick, hd, hr, hu, coerceClipDuration, hv0]

/-- Witness for C10 at the initial state and a concrete URL. -/
theorem c10_witness :
    (recordClick initialState "http://cam" none).1 =
      .started (jsTrim "http://cam") 5 ∧
    (recordClick initialState "http://cam" (some 0)).1 =
      .started (jsTrim "http://cam") 5 ∧
    (recordClick initialState "http://cam" (some (-1))).1 =
      .started (jsTrim "http://cam") (-1) := by
  obtain ⟨h1, h2, h3⟩ :=
    c10_theorem initialState "http://cam" (-1) rfl rfl (by decide)
  exact ⟨h1, h2, h3 (by decide)⟩

/-- C1 counterexample: two terminal event sources firing for the same
session are not latched against each other — a success message followed
by an error event produces two terminal notifications, contradicting
the claimed first-terminal-event-wins latch over all terminal
sources. -/
theorem c1_counterexample :
    (recRun startedState [.message "success", .error "boom"]).2 =
      [.succeeded, .failed "Recording error: boom"] ∧
    ((recRun startedState [.message "success", .error "boom"]).2).length ≠
      1 := by decide

/-- C1 (amended): the `recordingFinished` latch guards only the
process-exit callback. For a session trace in which at most one
explicit terminal signal (a success message or an error event) precedes
the process-exit callback, exactly one terminal notification is
delivered: the signal notification when there is one (the exit callback
is then suppressed), the exit classification otherwise. Additional
explicit signals are not suppressed and would each notify again. -/
theorem c1_theorem (st : RendererState) (pre : List ShellEvent)
    (err : Option String) (code : Int)
    (h0 : st.recordingFinished = false)
    (hpre : ∀ e ∈ pre, isExitEvent e = false)
    (hcount : pre.countP isTerminalSignal ≤ 1) :
    ((recRun st (pre ++ [.exited err code])).2).length = 1 := by
  rw [recRun_append]
  simp only [List.length_append]
  obtain ⟨hlen, hflag⟩ := recRun_signals pre st hpre
  have hexit : ((recRun (recRun st pre).1 [.exited err code]).2).length =
      if (recRun st pre).1.recordingFinished then 0 else 1 := by
    have h2 := recStep_exited_length (recRun st pre).1 err code
    simpa [recRun] using h2
  rw [hflag, h0] at hexit
  rw [hlen, hexit]
  by_cases hany : pre.any isTerminalSignal = true
  · have h1 : 0 < pre.countP isTerminalSignal := by
      obtain ⟨e, he, hsig⟩ := List.any_eq_true.mp hany
      exact List.countP_pos_iff.mpr ⟨e, he, hsig⟩
    simp only [hany, Bool.false_or, if_true]
    omega
  · have hall : ∀ x ∈ pre, ¬ isTerminalSignal x = true :=
      List.any_eq_false.mp (by simpa using hany)
    have hzero : pre.countP isTerminalSignal = 0 :=
      List.countP_eq_zero.mpr hall
    have hany2 : pre.any isTerminalSignal = false := by simpa using hany
    simp [hzero, hany2]

/-- Witness for C1 (amended): one progress message, one success signal,
then the exit callback — exactly one notification. -/
theorem c1_witness :
    ((recRun startedState
      ([.message "frame 1", .message "saved with success"] ++
        [.exited none 0])).2).length = 1 :=
  c1_theorem startedState [.message "frame 1", .message "saved with success"]
    none 0 (by decide) (by decide) (by decide)


/-- C8: touching an existing URL (in a collection with unique urls and
at most 20 entries, as every collection this program persists) keeps
the size, keeps every other entry identical, and only sets that one
`lastUsedAt` field of that entry to the current time — the result is a permutation
(reordering by recency) of the collection with exactly that one
timestamp updated. -/
theorem c8_theorem (url : String) (saved : List SavedUrl) (now : Int)
    (hblank : ¬ jsTrim url = "")
    (hmem : jsTrim url ∈ saved.map (fun e => e.url))
    (huniq : (saved.map (fun e => e.url)).Pairwise (· ≠ ·))
    (hlen : saved.length ≤ MAX_SAVED_URLS) :
    (markUrlAsUsed url saved now).length = saved.length ∧
    (markUrlAsUsed url saved now).Perm
      (saved.map (fun e =>
        if e.url = jsTrim url then { e with lastUsedAt := now } else e)) := by
  have hany : (saved.any fun item => item.url = jsTrim url) = true := by
    rw [List.any_eq_true]
    obtain ⟨e, he, heq⟩ := List.mem_map.mp hmem
    exact ⟨e, he, by simp [heq]⟩
  have hmark : markUrlAsUsed url saved now =
      (sortByLastUsedDesc
        (touchFirst saved (jsTrim url) now)).take MAX_SAVED_URLS := by
    rw [markUrlAsUsed_eq_of_ne url saved now hblank, hany]
    simp
  have hslen : (sortByLastUsedDesc (touchFirst saved (jsTrim url) now)).length =
      saved.length := by
    rw [length_sortByLastUsedDesc, length_touchFirst]
  rw [hmark, List.take_of_length_le (by rw [hslen]; exact hlen)]
  refine ⟨hslen, ?_⟩
  refine (sortByLastUsedDesc_perm (touchFirst saved (jsTrim url) now)).trans ?_
  rw [touchFirst_eq_map saved (jsTrim url) now huniq]

/-- Witness for C8 at a concrete two-entry collection. -/
theorem c8_witness :
    (markUrlAsUsed "a" [⟨"a", 1⟩, ⟨"b", 2⟩] 9).length =
      ([⟨"a", 1⟩, ⟨"b", 2⟩] : List SavedUrl).length ∧
    (markUrlAsUsed "a" [⟨"a", 1⟩, ⟨"b", 2⟩] 9).Perm
      (([⟨"a", 1⟩, ⟨"b", 2⟩] : List SavedUrl).map (fun e =>
        if e.url = jsTrim "a" then { e with lastUsedAt := 9 } else e)) :=
  c8_theorem "a" [⟨"a", 1⟩, ⟨"b", 2⟩] 9 (by decide) (by decide) (by decide)
    (by decide)

/-- C9: uniqueness of entries by normalized url is preserved —
`markUrlAsUsed` keeps a collection with pairwise-distinct urls
pairwise-distinct (both on an existing and on a new URL), and
`loadSavedUrls` of persisted data whose items are pairwise distinct by
trimmed url yields a collection with pairwise-distinct urls. -/
theorem c9_theorem :
    (∀ (url : String) (saved : List SavedUrl) (now : Int),
      (saved.map (fun e => e.url)).Pairwise (· ≠ ·) →
      ((markUrlAsUsed url saved now).map (fun e => e.url)).Pairwise (· ≠ ·)) ∧
    (∀ (parsed : List RawItem) (now : Int),
      (parsed.map (fun item => jsTrim item.url)).Pairwise (· ≠ ·) →
      ((loadSavedUrls parsed now).map (fun e => e.url)).Pairwise (· ≠ ·)) := by
  constructor
  · intro url saved now huniq
    by_cases hblank : jsTrim url = ""
    · simpa [markUrlAsUsed, hblank] using huniq
    · rw [markUrlAsUsed_eq_of_ne url saved now hblank]
      have hX : ((if saved.any (fun item => item.url = jsTrim url) then
          touchFirst saved (jsTrim url) now
        else saved ++ [⟨jsTrim url, now⟩]).map (fun e => e.url)).Pairwise
          (· ≠ ·) := by
        by_cases hany : (saved.any fun item => item.url = jsTrim url) = true
        · rw [if_pos hany, map_url_touchFirst]
          exact huniq
        · have hnot : ∀ x ∈ saved, ¬ x.url = jsTrim url := by
            simpa using hany
          rw [if_neg hany, List.map_append, List.pairwise_append]
          refine ⟨huniq, ?_, ?_⟩
          · exact List.pairwise_singleton _ _
          · intro a ha b hb
            obtain ⟨e, he, heq⟩ := List.mem_map.mp ha
            have hbeq : b = jsTrim url := by simpa using hb
            rw [← heq, hbeq]
            intro hcontra
            exact hnot e he hcontra
      have hsorted : ((sortByLastUsedDesc
          (if saved.any (fun item => item.url = jsTrim url) then
            touchFirst saved (jsTrim url) now
          else saved ++ [⟨jsTrim url, now⟩])).map (fun e => e.url)).Pairwise
            (· ≠ ·) :=
        (((sortByLastUsedDesc_perm _).map (fun e => e.url)).pairwise_iff
          (fun h => h.symm)).mpr hX
      exact List.Pairwise.sublist
        (List.Sublist.map (fun e : SavedUrl => e.url)
          (List.take_sublist MAX_SAVED_URLS _)) hsorted
  · intro parsed now h
    have s1 := List.filter_sublist
      (p := fun item : SavedUrl => item.url.length > 0)
      ((parsed.filter (fun item => item.urlIsString)).map
        (fun item =>
          ({ url := jsTrim item.url,
             lastUsedAt :=
               match item.lastUsedAtNum with
               | some n => if n = 0 then now else n
               | none => now } : SavedUrl)))
    have s2 := List.Sublist.map (fun e : SavedUrl => e.url) s1
    rw [List.map_map] at s2
    have s2' : List.Sublist
        ((loadSavedUrls parsed now).map (fun e => e.url))
        ((parsed.filter (fun item => item.urlIsString)).map
          (fun item => jsTrim item.url)) := s2
    have s3 := List.Sublist.map (fun item : RawItem => jsTrim item.url)
      (List.filter_sublist (p := fun item : RawItem => item.urlIsString) parsed)
    exact List.Pairwise.sublist (s2'.trans s3) h

/-- Witness for C9 at a concrete collection and persisted array. -/
theorem c9_witness :
    ((markUrlAsUsed "a" [⟨"b", 1⟩] 2).map (fun e => e.url)).Pairwise
      (· ≠ ·) ∧
    ((loadSavedUrls [⟨true, " a ", some 3⟩, ⟨true, "b", none⟩] 7).map
      (fun e => e.url)).Pairwise (· ≠ ·) :=
  ⟨c9_theorem.1 "a" [⟨"b", 1⟩] 2 (by decide),
   c9_theorem.2 [⟨true, " a ", some 3⟩, ⟨true, "b", none⟩] 7 (by decide)⟩
